import Mathlib

/-!
Verification of the `lattehhpel` serial driver for the HOECHERL&HACKL ZS506
programmable electronic load (module `lattehhpel/hhpel.py`).

The driver is embedded shallowly:

* the mutable fields of the Python object `HHPEL` become the structure
  `PelState`;
* the serial transport (a `pyserial` handle) becomes the structure
  `Transport`: a string of bytes waiting in the input buffer plus the ordered
  list of frames written so far.  The transport is modelled as non-faulting
  (`serial.SerialException` never fires), so the `except serial.SerialException`
  branches of the source are dead code here;
* the package logger becomes an explicit list of `(level, message)` entries.
  The call-site line suffix that the source appends via stack inspection
  (`HHPEL._line`) is omitted from the modelled messages;
* Python numbers are modelled as exact rationals (`ℚ`);
* Python exceptions become the `PelError` sum type, and every method returns
  the final `Sys` (state, transport, log) together with
  `Except PelError result`.  A Python exception does not undo earlier field
  assignments, so the erroring branches still return the mutated `Sys`.
* the fixed `time.sleep` settle delays have no observable effect in this
  model and are not represented.
-/

/-- Severity levels of the Python `logging` calls used by the driver. -/
inductive LogLevel where
  | debug
  | info
  | warning
  | error
  deriving Repr, DecidableEq

/-- The Python exceptions that can escape a driver method.
`notConnected` and `parseError` are the two `RuntimeError`s raised by
`HHPEL._check_pel_connected` and `HHPEL._convert_to_float`; they are the
spec's `NotConnectedError` and `ParseError`.  `valueError`, `typeError` and
`indexError` are the built-in Python exceptions that the source does not
catch (`float` / `int` on a bad string, `int(None)`, and `list[1]` on a
one-element split). -/
inductive PelError where
  | notConnected (msg : String)
  | parseError (msg : String)
  | valueError (raw : String)
  | typeError (msg : String)
  | indexError
  deriving Repr, DecidableEq

/-- The serial transport seen by one session: the decoded text currently
waiting in the input buffer (what `pel_com.read(pel_com.inWaiting())` would
return) and the frames written so far, oldest first. -/
structure Transport where
  inBuffer : String
  written : List String
  deriving Repr, DecidableEq

/-- The mutable fields of the Python `HHPEL` object. -/
structure PelState where
  port_name : String
  is_connected : Bool
  configured_current : ℚ
  last_current_range : ℚ
  deriving Repr, DecidableEq

/-- A whole session world: driver state, transport, and the log. -/
structure Sys where
  st : PelState
  tr : Transport
  log : List (LogLevel × String)
  deriving Repr, DecidableEq

instance {ε α : Type} [DecidableEq ε] [DecidableEq α] : DecidableEq (Except ε α) :=
  fun a b =>
    match a, b with
    | .error e1, .error e2 =>
        if h : e1 = e2 then .isTrue (by rw [h]) else .isFalse (by simp [h])
    | .error _, .ok _ => .isFalse (by simp)
    | .ok _, .error _ => .isFalse (by simp)
    | .ok a1, .ok a2 =>
        if h : a1 = a2 then .isTrue (by rw [h]) else .isFalse (by simp [h])

/-- Appends one record to the log. -/
def logAdd (s : Sys) (lvl : LogLevel) (msg : String) : Sys :=
  { s with log := s.log ++ [(lvl, msg)] }

/-!
Python string primitives used by the driver (`str.find`, `str.split` on a
one-character separator, `str.replace(c, '')`, `str.strip`, sign tests) are
re-implemented here by structural recursion over the character list of the
string, so that they agree with Python and evaluate inside the kernel.
-/

/-- Whether the character occurs in the string (`str.find(c) != -1`). -/
def strContains (s : String) (c : Char) : Bool :=
  s.data.contains c

/-- Auxiliary splitter over a character list. -/
def splitOnCharAux (c : Char) : List Char → List Char → List (List Char)
  | [], acc => [acc.reverse]
  | x :: xs, acc =>
      if x = c then acc.reverse :: splitOnCharAux c xs []
      else splitOnCharAux c xs (x :: acc)

/-- Python `str.split(c)` for a one-character separator: the (non-empty) list
of fragments between occurrences of `c`; `"".split(c) == ['']`. -/
def splitOnChar (c : Char) (s : String) : List String :=
  (splitOnCharAux c s.data []).map fun l => ⟨l⟩

/-- Python `str.replace(c, '')`: removes every occurrence of the character. -/
def removeChar (c : Char) (s : String) : String :=
  ⟨s.data.filter fun x => x ≠ c⟩

/-- Whether the string starts with the given character. -/
def strStartsWith (s : String) (c : Char) : Bool :=
  match s.data with
  | [] => false
  | x :: _ => x = c

/-- The string without its first character. -/
def strTail (s : String) : String :=
  ⟨s.data.drop 1⟩

/-- Number of characters in the string. -/
def strLength (s : String) : ℕ :=
  s.data.length

/-- Python `str.strip()`: surrounding whitespace removed. -/
def strTrim (s : String) : String :=
  ⟨((s.data.dropWhile Char.isWhitespace).reverse.dropWhile Char.isWhitespace).reverse⟩

/-- Message of the `RuntimeError` raised by `HHPEL._check_pel_connected`. -/
def notConnectedMsg : String :=
  "Can not execute the command requested, connection with the programmable electronic load is closed"

/-- Embedding of `HHPEL.send_command` (hhpel.py lines 117-144).
`_check_pel_connected` runs first: on a disconnected session it logs an error
and raises, before the transport is touched.  Otherwise the command plus a
newline is written (the preceding `pel_com.flushOutput()` has no observable
effect here, since modelled writes land immediately), and — only when the
command text contains the query marker `?` — the whole input buffer is read
(leaving it empty) and returned. -/
def send_command (s : Sys) (command_string : String) :
    Sys × Except PelError (Option String) :=
  if s.st.is_connected then
    let tr1 : Transport := { s.tr with written := s.tr.written ++ [command_string ++ "\n"] }
    if strContains command_string '?' then
      ({ s with tr := { tr1 with inBuffer := "" } }, .ok (some tr1.inBuffer))
    else
      ({ s with tr := tr1 }, .ok none)
  else
    (logAdd s .error notConnectedMsg, .error (.notConnected notConnectedMsg))

/-- A run of consecutive `self.send_command(...)` statements with no other
statement in between: each command is sent in order, and a raised error
aborts the run (later commands are not sent). -/
def sendList (s : Sys) : List String → Sys × Except PelError Unit
  | [] => (s, .ok ())
  | c :: cs =>
    match send_command s c with
    | (s1, .error e) => (s1, .error e)
    | (s1, .ok _) => sendList s1 cs

/-- Value of an all-digit string read in base 10. -/
def digitsVal (str : String) : ℕ :=
  str.data.foldl (fun a c => a * 10 + (c.toNat - 48)) 0

/-- Whether every character of the string is a decimal digit. -/
def isDigitsStr (str : String) : Bool :=
  str.data.all Char.isDigit

/-- Unsigned part of Python `float(str)` on a plain decimal literal:
digits with at most one decimal point and at least one digit overall
(`"12"`, `"1."`, `".5"`).  Anything else fails. -/
def parseUnsigned? (str : String) : Option ℚ :=
  match splitOnChar '.' str with
  | [a] =>
      if strLength a != 0 && isDigitsStr a then some (digitsVal a : ℚ) else none
  | [a, b] =>
      if (strLength a + strLength b != 0) && isDigitsStr a && isDigitsStr b then
        some ((digitsVal a : ℚ) + (digitsVal b : ℚ) / (10 : ℚ) ^ strLength b)
      else none
  | _ => none

/-- Model of Python `float(str)` on the plain decimal literals the device
protocol produces: an optional single sign followed by digits with an
optional decimal point.  On such strings it agrees exactly with `float`;
exotic accepted forms (`inf`, `nan`, embedded `e` exponents, underscores,
surrounding whitespace) are outside the protocol and outside the model.
`none` models the `ValueError` that `float` raises. -/
def parseFloat? (str : String) : Option ℚ :=
  if strStartsWith str '+' then parseUnsigned? (strTail str)
  else if strStartsWith str '-' then (parseUnsigned? (strTail str)).map Neg.neg
  else parseUnsigned? str

/-- Model of Python `int(str)`: optional surrounding whitespace, an optional
single sign and at least one digit.  `none` models `ValueError`. -/
def parseInt? (str : String) : Option ℤ :=
  let t := strTrim str
  if strStartsWith t '+' then
    if strLength t > 1 && isDigitsStr (strTail t) then some (digitsVal (strTail t) : ℤ)
    else none
  else if strStartsWith t '-' then
    if strLength t > 1 && isDigitsStr (strTail t) then some (-(digitsVal (strTail t) : ℤ))
    else none
  else
    if strLength t != 0 && isDigitsStr t then some (digitsVal t : ℤ) else none

/-- Embedding of `HHPEL._convert_to_float` (hhpel.py lines 81-88).
The source wraps `float(value)` in `try/except TypeError`: only a `None`
argument (a `TypeError`) is converted into the logged `RuntimeError`
(the spec's `ParseError`); a present but non-numeric string raises
`ValueError`, which the `except TypeError` clause does NOT catch, so it
escapes unlogged. -/
def convert_to_float (s : Sys) (value : Option String) (error_message : String) :
    Sys × Except PelError ℚ :=
  match value with
  | none =>
      let msg := error_message ++ " None"
      (logAdd s .error msg, .error (.parseError msg))
  | some v =>
      match parseFloat? v with
      | some q => (s, .ok q)
      | none => (s, .error (.valueError v))

/-- `resp.split('E')[0]` and `resp.split('E')[1]` of the read operations:
Python raises `IndexError` when the response contains no `E`. -/
def splitE (resp : String) : Except PelError (String × String) :=
  match splitOnChar 'E' resp with
  | a :: b :: _ => .ok (a, b)
  | _ => .error .indexError

/-- Ten to a rational power, as computed by `pow(10, exp)` in the read
operations.  The device protocol only ever produces integer exponents, where
the value is exact; a non-integer exponent would give an irrational real,
which has no exact rational counterpart — that branch is mapped to `0` and is
exercised by no claim and no theorem below. -/
def floatPow10 (e : ℚ) : ℚ :=
  if e.den = 1 then (10 : ℚ) ^ e.num else 0

/-- The shared body of the five read operations (`measure_current`,
`measure_voltage`, `read_resistance_set`, `read_current_set`,
`read_trigger_voltage_set`), hhpel.py lines 240-249 and their copies:
send the query, split the response on `E` (taking parts 0 and 1), remove the
`+` signs via `str.replace('+', '')`, convert both parts, and return
`base * pow(10, exp)`. -/
def read_float (s : Sys) (query error_message : String) : Sys × Except PelError ℚ :=
  match send_command s query with
  | (s1, .error e) => (s1, .error e)
  | (s1, .ok resp) =>
    let parts : Except PelError (Option String × Option String) :=
      match resp with
      | some r =>
        match splitE r with
        | .ok (a, b) => .ok (some (removeChar '+' a), some (removeChar '+' b))
        | .error e => .error e
      | none => .ok (none, none)
    match parts with
    | .error e => (s1, .error e)
    | .ok (base?, exp?) =>
      match convert_to_float s1 base? error_message with
      | (s2, .error e) => (s2, .error e)
      | (s2, .ok base) =>
        match convert_to_float s2 exp? error_message with
        | (s3, .error e) => (s3, .error e)
        | (s3, .ok exp) => (s3, .ok (base * floatPow10 exp))

/-- Renders a numeric argument interpolated into a command string
(Python f-string interpolation of the value).  The source interpolates the
decimal repr of a binary float; values are modelled as exact rationals, so
this is the rational counterpart.  No claim depends on the rendered digits,
only on which commands are sent and in which order. -/
def fmtQ (q : ℚ) : String :=
  if q.den = 1 then toString q.num else toString q.num ++ "/" ++ toString q.den

/-- Rounding to the nearest integer, ties to even — the rounding of Pythons
fixed-point formatting `'{0:.3f}'.format` (idealised from the binary double
to the exact rational value). -/
def roundHalfEven (q : ℚ) : ℤ :=
  if q - ⌊q⌋ < 1 / 2 then ⌊q⌋
  else if q - ⌊q⌋ > 1 / 2 then ⌊q⌋ + 1
  else if ⌊q⌋ % 2 = 0 then ⌊q⌋ else ⌊q⌋ + 1

/-- Pads a natural number below 1000 to three digits. -/
def pad3 (n : ℕ) : String :=
  if n < 10 then "00" ++ toString n
  else if n < 100 then "0" ++ toString n
  else toString n

/-- Model of `'{0:.3f}'.format(q)`: the value rounded to three decimal
places (half to even), rendered with exactly three digits after the point. -/
def fmt3 (q : ℚ) : String :=
  let n := roundHalfEven (q * 1000)
  (if n < 0 then "-" else "") ++ toString (n.natAbs / 1000) ++ "." ++ pad3 (n.natAbs % 1000)

/-- The numeric value of `float('{0:.3f}'.format(q))`: `q` rounded to three
decimal places, half to even. -/
def round3 (q : ℚ) : ℚ :=
  (roundHalfEven (q * 1000) : ℚ) / 1000

/-- Embedding of `HHPEL.read_identification` (hhpel.py lines 98-115). -/
def read_identification (s : Sys) : Sys × Except PelError (Option String) :=
  match send_command s "*IDN?" with
  | (s1, .error e) => (s1, .error e)
  | (s1, .ok ident) =>
      (logAdd s1 .debug "Programmable electronic load identification", .ok ident)

/-- Embedding of `HHPEL._mode_resistance` (hhpel.py lines 90-92). -/
def mode_resistance (s : Sys) : Sys × Except PelError Unit :=
  match send_command s "MODE:RES" with
  | (s1, .error e) => (s1, .error e)
  | (s1, .ok _) =>
      (logAdd s1 .debug "Programmable electronic load is set to constant resistance mode", .ok ())

/-- Embedding of `HHPEL._mode_current` (hhpel.py lines 94-96). -/
def mode_current (s : Sys) : Sys × Except PelError Unit :=
  match send_command s "MODE:CURR" with
  | (s1, .error e) => (s1, .error e)
  | (s1, .ok _) =>
      (logAdd s1 .debug "Programmable electronic load is set to constant current mode", .ok ())

/-- Embedding of `HHPEL.set_input_on` (hhpel.py lines 146-167).  The
`except serial.SerialException` branch never fires in the non-faulting
transport model; the not-connected `RuntimeError` from `send_command` is not
a `SerialException` and propagates. -/
def set_input_on (s : Sys) : Sys × Except PelError Unit :=
  sendList s ["CURR:RANG " ++ fmtQ s.st.last_current_range, "INP ON"]

/-- Embedding of `HHPEL.set_input_off` (hhpel.py lines 169-190). -/
def set_input_off (s : Sys) : Sys × Except PelError Unit :=
  sendList s ["CURR:RANG 0.01", "INP OFF"]

/-- Embedding of `HHPEL.is_input_on_off` (hhpel.py lines 192-220):
`int(self.send_command('INP?'))`, then map `1` to `"ON"`, anything else to
`"OFF"`.  `int(None)` would raise `TypeError` and a non-numeric response
raises `ValueError`; neither is caught by the `except serial.SerialException`
clause. -/
def is_input_on_off (s : Sys) : Sys × Except PelError String :=
  match send_command s "INP?" with
  | (s1, .error e) => (s1, .error e)
  | (s1, .ok none) => (s1, .error (.typeError "int() argument must not be None"))
  | (s1, .ok (some r)) =>
    match parseInt? r with
    | none => (s1, .error (.valueError r))
    | some n => (s1, .ok (if n = 1 then "ON" else "OFF"))

/-- Embedding of `HHPEL.measure_current` (hhpel.py lines 222-249). -/
def measure_current (s : Sys) : Sys × Except PelError ℚ :=
  read_float s "MEAS:CURR?" "Not possible to read current value"

/-- Embedding of `HHPEL.measure_voltage` (hhpel.py lines 251-278). -/
def measure_voltage (s : Sys) : Sys × Except PelError ℚ :=
  read_float s "MEAS:VOLT?" "Not possible to read voltage value"

/-- Embedding of `HHPEL.set_resistance` (hhpel.py lines 280-305). -/
def set_resistance (s : Sys) (value : ℚ) : Sys × Except PelError Unit :=
  match sendList s ["SFUN:EXP:ENAB OFF", "RES " ++ fmtQ value] with
  | (s1, .error e) => (s1, .error e)
  | (s1, .ok _) => mode_resistance s1

/-- Embedding of `HHPEL.read_resistance_set` (hhpel.py lines 307-334). -/
def read_resistance_set (s : Sys) : Sys × Except PelError ℚ :=
  read_float s "RES?" "Not possible to read resistance value"

/-- Embedding of `HHPEL.set_constant_current` (hhpel.py lines 336-365).
`self.configured_current = nominal_value` is assigned BEFORE the first
`send_command` (hence before the connection check), and
`self.last_current_range = nominal_value` between the `CURR:RANG` and the
`CURR` commands. -/
def set_constant_current (s : Sys) (nominal_value : ℚ) : Sys × Except PelError Unit :=
  let s0 := { s with st := { s.st with configured_current := nominal_value } }
  match sendList s0 ["VOLT:PROT 0", "SFUN:EXP:ENAB OFF", "CURR:RANG " ++ fmtQ nominal_value] with
  | (s1, .error e) => (s1, .error e)
  | (s1, .ok _) =>
    let s2 := { s1 with st := { s1.st with last_current_range := nominal_value } }
    match send_command s2 ("CURR " ++ fmtQ nominal_value) with
    | (s3, .error e) => (s3, .error e)
    | (s3, .ok _) => mode_current s3

/-- Embedding of `HHPEL.set_trigger_voltage` (hhpel.py lines 501-524). -/
def set_trigger_voltage (s : Sys) (value : ℚ) : Sys × Except PelError Unit :=
  sendList s ["VOLT:PROT " ++ fmtQ value]

/-- Embedding of `HHPEL.set_inrush_current` (hhpel.py lines 367-411).
`self.configured_current = nominal_value` is assigned before anything else.
With `inrush_time == 0` the body is exactly `set_constant_current`;
otherwise `last_current_range` is updated to `inrush_value` after the first
(combined) command, and the shaping-function command depends on
`is_exponential`. -/
def set_inrush_current (s : Sys) (nominal_value inrush_value inrush_time : ℚ)
    (is_exponential : Bool) (off_to_on_thr : ℚ) : Sys × Except PelError Unit :=
  let s0 := { s with st := { s.st with configured_current := nominal_value } }
  if inrush_time = 0 then
    set_constant_current s0 nominal_value
  else
    match send_command s0 ("CURR:RANG " ++ fmtQ inrush_value ++ ";:CURR 0;MODE:CURR") with
    | (s1, .error e) => (s1, .error e)
    | (s1, .ok _) =>
      let s2 := { s1 with st := { s1.st with last_current_range := inrush_value } }
      match set_trigger_voltage s2 off_to_on_thr with
      | (s3, .error e) => (s3, .error e)
      | (s3, .ok _) =>
        let shape :=
          if is_exponential then
            "SFUN:EXP " ++ fmtQ inrush_value ++ "," ++ fmtQ nominal_value ++ ","
              ++ fmtQ (inrush_time / 3) ++ ",0.0,0.0"
          else
            "SFUN:EXP " ++ fmtQ inrush_value ++ "," ++ fmtQ nominal_value ++ ",0.000001,"
              ++ fmtQ inrush_time ++ ",0.02"
        sendList s3 [shape, "SFUN:EXP:ENAB ON", "INP ON"]

/-- Embedding of `HHPEL.perform_pulse` (hhpel.py lines 413-448).
`duration` and `configured_current` are first pushed through
`'{0:.3f}'.format`; the range actually programmed (and stored in
`last_current_range`, BEFORE any command is sent) is
`max(float(current), float(current_after_pulse))`, i.e. the maximum of the
raw `current` and the ROUNDED configured current. -/
def perform_pulse (s : Sys) (current duration : ℚ) : Sys × Except PelError Unit :=
  let durationS := fmt3 duration
  let current_after_pulse := fmt3 s.st.configured_current
  let max_current := max current (round3 s.st.configured_current)
  let s0 := { s with st := { s.st with last_current_range := max_current } }
  sendList s0
    ["SFUN:EXP:ENAB OFF",
     "CURR:RANG " ++ fmtQ max_current,
     "LIST:CURR " ++ fmtQ current ++ "," ++ current_after_pulse,
     "LIST:CURR:RTIM 0, 0",
     "LIST:CURR:DWEL " ++ durationS ++ ",0.001",
     "LIST:COUN 1",
     "INP ON",
     "LIST:STAT ON"]

/-- Embedding of `HHPEL.reset` (hhpel.py lines 450-470): sends `*RST` and
nothing else; no session field is touched. -/
def reset (s : Sys) : Sys × Except PelError Unit :=
  sendList s ["*RST"]

/-- Embedding of `HHPEL.read_current_set` (hhpel.py lines 472-499). -/
def read_current_set (s : Sys) : Sys × Except PelError ℚ :=
  read_float s "CURR?" "Not possible to read current value"

/-- Embedding of `HHPEL.read_trigger_voltage_set` (hhpel.py lines 526-553). -/
def read_trigger_voltage_set (s : Sys) : Sys × Except PelError ℚ :=
  read_float s "VOLT:PROT?" "Not possible to read trigger voltage value"

/-- Warning logged by `close_connection` on an already-closed session. -/
def alreadyClosedMsg (port : String) : String :=
  "Connection with programmable electronic load is already closed on serial port " ++ port

/-- Embedding of `HHPEL.close_connection` (hhpel.py lines 555-578): when
connected, send `GTL`, close the handle and clear the flag (logging at info);
when already disconnected, log a warning and change nothing. -/
def close_connection (s : Sys) : Sys × Except PelError Unit :=
  if s.st.is_connected then
    match send_command s "GTL" with
    | (s1, .error e) => (s1, .error e)
    | (s1, .ok _) =>
      (logAdd { s1 with st := { s1.st with is_connected := false } } .info
        ("Closed connection with programmable electronic load on serial port "
          ++ s1.st.port_name), .ok ())
  else
    (logAdd s .warning (alreadyClosedMsg s.st.port_name), .ok ())

/-- Embedding of the successful branch of `HHPEL.__init__` (hhpel.py lines
27-58): a fresh connected session on a fresh transport, with
`configured_current = 0` and `last_current_range = 1`, logging at info. -/
def open_session (port : String) : Sys :=
  { st := { port_name := port, is_connected := true,
            configured_current := 0, last_current_range := 1 },
    tr := { inBuffer := "", written := [] },
    log := [(LogLevel.info,
      "Connection with programmable electronic load successful on serial port " ++ port)] }

/-- The decode path that every read operation applies to a PRESENT response
string `r` (hhpel.py lines 242-243 and 247-249 with `resp = r`): split on
`E` taking parts 0 and 1 (`IndexError` when there is no `E`), remove the `+`
signs via `str.replace('+', '')`, convert both parts (an uncaught
`ValueError` on a present non-numeric part), and return
`base * pow(10, exp)`. -/
def decode_response (r : String) : Except PelError ℚ :=
  match splitE r with
  | .error e => .error e
  | .ok (a, b) =>
    match parseFloat? (removeChar '+' a) with
    | none => .error (.valueError (removeChar '+' a))
    | some base =>
      match parseFloat? (removeChar '+' b) with
      | none => .error (.valueError (removeChar '+' b))
      | some exp => .ok (base * floatPow10 exp)

/-- Removes the leading `+` signs of a string (and nothing else). -/
def stripLeadingPlus (s : String) : String :=
  ⟨s.data.dropWhile fun c => c = '+'⟩

/-- The decode algorithm exactly as the spec and claim C4 word it:
split the response on `E` into mantissa and exponent, strip any LEADING `+`
sign from both, parse each as a number, return mantissa times ten to the
exponent.  Any failure is `none`. -/
def specDecodeLeading (r : String) : Option ℚ :=
  match splitOnChar 'E' r with
  | a :: b :: _ =>
    match parseFloat? (stripLeadingPlus a), parseFloat? (stripLeadingPlus b) with
    | some m, some e => some (m * floatPow10 e)
    | _, _ => none
  | _ => none

/-- The decode algorithm with the amended wording of claim C4: REMOVE every
`+` sign from both substrings (the source's `str.replace('+', '')`), not
only the leading ones. -/
def specDecodeAmended (r : String) : Option ℚ :=
  match splitOnChar 'E' r with
  | a :: b :: _ =>
    match parseFloat? (removeChar '+' a), parseFloat? (removeChar '+' b) with
    | some m, some e => some (m * floatPow10 e)
    | _, _ => none
  | _ => none

/-- A connected session on `COM4` in its post-`__init__` state, with the
given text pending in the transport input buffer. -/
def mkSession (buf : String) : Sys :=
  { st := { port_name := "COM4", is_connected := true,
            configured_current := 0, last_current_range := 1 },
    tr := { inBuffer := buf, written := [] },
    log := [] }

/-- A session whose connection flag is down (as after `close_connection`). -/
def closedSession : Sys :=
  { st := { port_name := "COM4", is_connected := false,
            configured_current := 0, last_current_range := 1 },
    tr := { inBuffer := "", written := [] },
    log := [] }

/-- A connected session whose configured current is 0.0004 A (an exact value
below half of the last formatting decimal, 0.0005). -/
def smallCurrentSession : Sys :=
  { st := { port_name := "COM4", is_connected := true,
            configured_current := 1 / 2500, last_current_range := 1 },
    tr := { inBuffer := "", written := [] },
    log := [] }

/-- What claim C1 requires of an operation invoked on a disconnected
session: the call fails with the not-connected `RuntimeError` (the spec's
`NotConnectedError`) and the transport is untouched — nothing written,
nothing read. -/
def failsNotConnected {α : Type} (s : Sys) (out : Sys × Except PelError α) : Prop :=
  out.1.tr = s.tr ∧ out.2 = Except.error (PelError.notConnected notConnectedMsg)

/-! ## Basic facts about the command exchange -/

theorem send_command_st (s : Sys) (c : String) : (send_command s c).1.st = s.st := by
  unfold send_command logAdd
  split
  · split <;> rfl
  · rfl

theorem send_command_of_not_connected (s : Sys) (c : String)
    (h : s.st.is_connected = false) :
    send_command s c
      = (logAdd s .error notConnectedMsg, .error (.notConnected notConnectedMsg)) := by
  unfold send_command
  rw [h]
  simp

theorem send_command_written_of_connected (s : Sys) (c : String)
    (h : s.st.is_connected = true) :
    (send_command s c).1.tr.written = s.tr.written ++ [c ++ "\n"] := by
  unfold send_command
  rw [h]
  simp only [if_true]
  split <;> rfl

theorem send_command_log_of_connected (s : Sys) (c : String)
    (h : s.st.is_connected = true) :
    (send_command s c).1.log = s.log := by
  unfold send_command
  rw [h]
  simp only [if_true]
  split <;> rfl

theorem send_command_ok_of_connected (s : Sys) (c : String)
    (h : s.st.is_connected = true) :
    (send_command s c).2 = .ok (if strContains c '?' then some s.tr.inBuffer else none) := by
  unfold send_command
  rw [h]
  simp only [if_true]
  split <;> simp_all

theorem send_command_inBuffer_of_connected (s : Sys) (c : String)
    (h : s.st.is_connected = true) (hq : strContains c '?' = false) :
    (send_command s c).1.tr.inBuffer = s.tr.inBuffer := by
  unfold send_command
  rw [h, hq]
  simp

theorem sendList_st (s : Sys) (cs : List String) : (sendList s cs).1.st = s.st := by
  induction cs generalizing s with
  | nil => rfl
  | cons c cs ih =>
    have hst := send_command_st s c
    unfold sendList
    rcases hsc : send_command s c with ⟨s1, r⟩
    rw [hsc] at hst
    cases r with
    | error e => simpa using hst
    | ok v => simpa [ih s1] using hst

theorem sendList_of_connected (s : Sys) (cs : List String)
    (h : s.st.is_connected = true) :
    (sendList s cs).2 = .ok ()
      ∧ (sendList s cs).1.tr.written = s.tr.written ++ cs.map (fun c => c ++ "\n")
      ∧ (sendList s cs).1.log = s.log := by
  induction cs generalizing s with
  | nil => simp [sendList]
  | cons c cs ih =>
    have hw := send_command_written_of_connected s c h
    have hl := send_command_log_of_connected s c h
    have hok := send_command_ok_of_connected s c h
    have hst := send_command_st s c
    unfold sendList
    rcases hsc : send_command s c with ⟨s1, r⟩
    rw [hsc] at hw hl hok hst
    simp only at hw hl hok hst
    subst hok
    have h1 : s1.st.is_connected = true := by rw [hst, h]
    rcases ih s1 h1 with ⟨iok, iw, il⟩
    simp [iok, iw, il, hw, hl]

theorem sendList_of_not_connected (s : Sys) (c : String) (cs : List String)
    (h : s.st.is_connected = false) :
    sendList s (c :: cs)
      = (logAdd s .error notConnectedMsg, .error (.notConnected notConnectedMsg)) := by
  unfold sendList
  rw [send_command_of_not_connected s c h]

theorem send_command_of_connected_query (s : Sys) (c : String)
    (h : s.st.is_connected = true) (hq : strContains c '?' = true) :
    send_command s c
      = ({ s with tr := { inBuffer := "", written := s.tr.written ++ [c ++ "\n"] } },
         .ok (some s.tr.inBuffer)) := by
  unfold send_command
  rw [h, hq]
  rfl

theorem read_float_of_not_connected (s : Sys) (q m : String)
    (h : s.st.is_connected = false) :
    read_float s q m
      = (logAdd s .error notConnectedMsg, .error (.notConnected notConnectedMsg)) := by
  unfold read_float
  rw [send_command_of_not_connected s q h]

/-- A connected read operation is: send the query, then decode the text that
was waiting in the input buffer.  Its only effect on the transport is the
written query frame and the emptied input buffer, and — since the response
is present — it can never log (the `TypeError` branch of
`_convert_to_float` is unreachable). -/
theorem read_float_of_connected_query (s : Sys) (q m : String)
    (h : s.st.is_connected = true) (hq : strContains q '?' = true) :
    read_float s q m
      = ({ s with tr := { inBuffer := "", written := s.tr.written ++ [q ++ "\n"] } },
         decode_response s.tr.inBuffer) := by
  unfold read_float decode_response
  rw [send_command_of_connected_query s q h hq]
  rcases hsp : splitE s.tr.inBuffer with e | ⟨a, b⟩
  · simp [hsp, convert_to_float]
  · rcases h1 : parseFloat? (removeChar '+' a) with _ | base
    · simp [hsp, h1, convert_to_float]
    · rcases h2 : parseFloat? (removeChar '+' b) with _ | exp
      · simp [hsp, h1, h2, convert_to_float]
      · simp [hsp, h1, h2, convert_to_float]

theorem send_command_of_connected_nonquery (s : Sys) (c : String)
    (h : s.st.is_connected = true) (hq : strContains c '?' = false) :
    send_command s c
      = ({ s with tr := { s.tr with written := s.tr.written ++ [c ++ "\n"] } }, .ok none) := by
  unfold send_command
  rw [h, hq]
  rfl

theorem failsNotConnected_sendList (s s0 : Sys) (c : String) (cs : List String)
    (htr : s0.tr = s.tr) (h0 : s0.st.is_connected = false) :
    failsNotConnected s (sendList s0 (c :: cs)) := by
  rw [sendList_of_not_connected s0 c cs h0]
  exact ⟨htr, rfl⟩

/-! ## Claim C9 — reset sends only *RST and changes no session field -/

/-- Claim C9: on a connected session, `reset` sends only the device reset
command `*RST` (one frame written, nothing read), succeeds, and leaves every
session field — `port_name`, `is_connected`, `configured_current`,
`last_current_range` — exactly as before the call. -/
theorem C9_reset_frame (s : Sys) (h : s.st.is_connected = true) :
    (reset s).1.st = s.st
      ∧ (reset s).1.tr.written = s.tr.written ++ ["*RST\n"]
      ∧ (reset s).1.tr.inBuffer = s.tr.inBuffer
      ∧ (reset s).2 = .ok () := by
  have hfull : reset s
      = ({ s with tr := { s.tr with written := s.tr.written ++ ["*RST\n"] } }, .ok ()) := by
    unfold reset sendList
    rw [send_command_of_connected_nonquery s "*RST" h (by decide)]
    rfl
  rw [hfull]
  exact ⟨rfl, rfl, rfl, rfl⟩

/-- Witness for C9 at a concrete connected session. -/
theorem C9_reset_frame_witness :
    (mkSession "").st.is_connected = true
      ∧ (reset (mkSession "")).1.st = (mkSession "").st :=
  ⟨rfl, (C9_reset_frame (mkSession "") rfl).1⟩

/-! ## Claim C8 — send returns a response exactly for query commands -/

/-- Claim C8: on a connected session, `send_command c` returns a response —
the decoded contents of the input buffer — if and only if `c` contains the
query marker `?`.  It always writes `c` plus a newline; a query returns the
buffered text and empties the buffer, a non-query returns no value and does
not read the buffer. -/
theorem C8_send_query_iff (s : Sys) (c : String) (h : s.st.is_connected = true) :
    ((∃ resp, (send_command s c).2 = .ok (some resp)) ↔ strContains c '?' = true)
      ∧ (send_command s c).1.tr.written = s.tr.written ++ [c ++ "\n"]
      ∧ (strContains c '?' = true →
          (send_command s c).2 = .ok (some s.tr.inBuffer)
            ∧ (send_command s c).1.tr.inBuffer = "")
      ∧ (strContains c '?' = false →
          (send_command s c).2 = .ok none
            ∧ (send_command s c).1.tr.inBuffer = s.tr.inBuffer) := by
  by_cases hq : strContains c '?' = true
  · rw [send_command_of_connected_query s c h hq]
    simp [hq]
  · have hq2 : strContains c '?' = false := by simpa using hq
    rw [send_command_of_connected_nonquery s c h hq2]
    simp [hq2]

/-- Witness for C8 at a concrete connected session and query command. -/
theorem C8_send_query_iff_witness :
    (mkSession "ZS506\n").st.is_connected = true
      ∧ ((∃ resp, (send_command (mkSession "ZS506\n") "*IDN?").2 = .ok (some resp))
          ↔ strContains "*IDN?" '?' = true) :=
  ⟨rfl, (C8_send_query_iff (mkSession "ZS506\n") "*IDN?" rfl).1⟩

/-! ## Claim C1 — every operation bar open/close fails fast when disconnected -/

/-- Claim C1: on a session whose `is_connected` flag is false, every
operation other than open and close — raw command send, read identification,
set/get current, set/get resistance, set/get trigger voltage, measure
current, measure voltage, input on/off/status, reset, set inrush current,
perform pulse — fails with the not-connected error and neither writes to nor
reads from the serial transport. -/
theorem C1_guard_all_ops (s : Sys) (h : s.st.is_connected = false) :
    (∀ c, failsNotConnected s (send_command s c))
      ∧ failsNotConnected s (read_identification s)
      ∧ (∀ v, failsNotConnected s (set_constant_current s v))
      ∧ failsNotConnected s (read_current_set s)
      ∧ (∀ v, failsNotConnected s (set_resistance s v))
      ∧ failsNotConnected s (read_resistance_set s)
      ∧ (∀ v, failsNotConnected s (set_trigger_voltage s v))
      ∧ failsNotConnected s (read_trigger_voltage_set s)
      ∧ failsNotConnected s (measure_current s)
      ∧ failsNotConnected s (measure_voltage s)
      ∧ failsNotConnected s (set_input_on s)
      ∧ failsNotConnected s (set_input_off s)
      ∧ failsNotConnected s (is_input_on_off s)
      ∧ failsNotConnected s (reset s)
      ∧ (∀ n iv it b thr, failsNotConnected s (set_inrush_current s n iv it b thr))
      ∧ (∀ cur d, failsNotConnected s (perform_pulse s cur d)) := by
  refine ⟨?_, ?_, ?_, ?_, ?_, ?_, ?_, ?_, ?_, ?_, ?_, ?_, ?_, ?_, ?_, ?_⟩
  · intro c
    rw [send_command_of_not_connected s c h]
    exact ⟨rfl, rfl⟩
  · unfold read_identification
    rw [send_command_of_not_connected s _ h]
    exact ⟨rfl, rfl⟩
  · intro v
    unfold set_constant_current
    dsimp only
    rw [sendList_of_not_connected { s with st := { s.st with configured_current := v } } _ _ h]
    exact ⟨rfl, rfl⟩
  · unfold read_current_set
    rw [read_float_of_not_connected s _ _ h]
    exact ⟨rfl, rfl⟩
  · intro v
    unfold set_resistance
    rw [sendList_of_not_connected _ _ _ h]
    exact ⟨rfl, rfl⟩
  · unfold read_resistance_set
    rw [read_float_of_not_connected s _ _ h]
    exact ⟨rfl, rfl⟩
  · intro v
    unfold set_trigger_voltage
    rw [sendList_of_not_connected _ _ _ h]
    exact ⟨rfl, rfl⟩
  · unfold read_trigger_voltage_set
    rw [read_float_of_not_connected s _ _ h]
    exact ⟨rfl, rfl⟩
  · unfold measure_current
    rw [read_float_of_not_connected s _ _ h]
    exact ⟨rfl, rfl⟩
  · unfold measure_voltage
    rw [read_float_of_not_connected s _ _ h]
    exact ⟨rfl, rfl⟩
  · unfold set_input_on
    rw [sendList_of_not_connected _ _ _ h]
    exact ⟨rfl, rfl⟩
  · unfold set_input_off
    rw [sendList_of_not_connected _ _ _ h]
    exact ⟨rfl, rfl⟩
  · unfold is_input_on_off
    rw [send_command_of_not_connected s _ h]
    exact ⟨rfl, rfl⟩
  · unfold reset
    rw [sendList_of_not_connected _ _ _ h]
    exact ⟨rfl, rfl⟩
  · intro n iv it b thr
    unfold set_inrush_current
    dsimp only
    by_cases hit : it = 0
    · rw [if_pos hit]
      unfold set_constant_current
      dsimp only
      rw [sendList_of_not_connected { s with st := { s.st with configured_current := n } } _ _ h]
      exact ⟨rfl, rfl⟩
    · rw [if_neg hit]
      rw [send_command_of_not_connected { s with st := { s.st with configured_current := n } } _ h]
      exact ⟨rfl, rfl⟩
  · intro cur d
    unfold perform_pulse
    dsimp only
    rw [sendList_of_not_connected
      { s with st := { s.st with last_current_range := max cur (round3 s.st.configured_current) } }
      _ _ h]
    exact ⟨rfl, rfl⟩

/-- Witness for C1 at a concrete disconnected session. -/
theorem C1_guard_all_ops_witness :
    closedSession.st.is_connected = false
      ∧ failsNotConnected closedSession (send_command closedSession "*IDN?")
      ∧ failsNotConnected closedSession (measure_voltage closedSession) :=
  ⟨rfl, (C1_guard_all_ops closedSession rfl).1 "*IDN?",
    (C1_guard_all_ops closedSession rfl).2.2.2.2.2.2.2.2.2.1⟩

/-! ## Claim C10 — the failed-operation error path is not atomic -/

/-- Claim C10 (implicit): on a disconnected session, `set_constant_current v`
and `set_inrush_current n ...` raise the not-connected error, yet afterwards
`configured_current` has already been assigned (`v` resp. `n`), because the
field assignment precedes the connection check; `last_current_range` is
unchanged in both cases. -/
theorem C10_nonatomic_error_path (s : Sys) (v n iv it thr : ℚ) (b : Bool)
    (h : s.st.is_connected = false) :
    ((set_constant_current s v).2 = .error (.notConnected notConnectedMsg)
      ∧ (set_constant_current s v).1.st.configured_current = v
      ∧ (set_constant_current s v).1.st.last_current_range = s.st.last_current_range)
    ∧ ((set_inrush_current s n iv it b thr).2 = .error (.notConnected notConnectedMsg)
      ∧ (set_inrush_current s n iv it b thr).1.st.configured_current = n
      ∧ (set_inrush_current s n iv it b thr).1.st.last_current_range
          = s.st.last_current_range) := by
  constructor
  · unfold set_constant_current
    dsimp only
    rw [sendList_of_not_connected { s with st := { s.st with configured_current := v } } _ _ h]
    exact ⟨rfl, rfl, rfl⟩
  · unfold set_inrush_current
    dsimp only
    by_cases hit : it = 0
    · rw [if_pos hit]
      unfold set_constant_current
      dsimp only
      rw [sendList_of_not_connected { s with st := { s.st with configured_current := n } } _ _ h]
      exact ⟨rfl, rfl, rfl⟩
    · rw [if_neg hit]
      rw [send_command_of_not_connected { s with st := { s.st with configured_current := n } } _ h]
      exact ⟨rfl, rfl, rfl⟩

/-- Witness for C10 at a concrete disconnected session. -/
theorem C10_nonatomic_error_path_witness :
    closedSession.st.is_connected = false
      ∧ (set_constant_current closedSession 5).1.st.configured_current = 5
      ∧ (set_inrush_current closedSession 7 3 2 true 6).1.st.configured_current = 7 :=
  ⟨rfl, (C10_nonatomic_error_path closedSession 5 7 3 2 6 true rfl).1.2.1,
    (C10_nonatomic_error_path closedSession 5 7 3 2 6 true rfl).2.2.1⟩

/-! ## Claim C2 — close is idempotent and never fails -/

theorem close_connection_of_connected (s : Sys) (h : s.st.is_connected = true) :
    close_connection s
      = ({ st := { s.st with is_connected := false },
           tr := { s.tr with written := s.tr.written ++ ["GTL\n"] },
           log := s.log
             ++ [(LogLevel.info,
                  "Closed connection with programmable electronic load on serial port "
                    ++ s.st.port_name)] }, .ok ()) := by
  unfold close_connection
  rw [h]
  rw [send_command_of_connected_nonquery s "GTL" h (by decide)]
  rfl

theorem close_connection_of_not_connected (s : Sys) (h : s.st.is_connected = false) :
    close_connection s
      = (logAdd s .warning (alreadyClosedMsg s.st.port_name), .ok ()) := by
  unfold close_connection
  rw [h]
  rfl

/-- Claim C2: `close_connection` is idempotent and never fails.  A
successful open followed by close succeeds and leaves `is_connected = false`;
a second close succeeds, changes neither the session state nor the
transport, and only appends the already-closed warning to the log.  More
generally, closing any disconnected session is exactly that warning-logging
no-op raising nothing. -/
theorem C2_close_idempotent :
    (∀ port : String,
      (close_connection (open_session port)).2 = .ok ()
        ∧ (close_connection (open_session port)).1.st.is_connected = false
        ∧ (close_connection (close_connection (open_session port)).1).2 = .ok ()
        ∧ (close_connection (close_connection (open_session port)).1).1.st
            = (close_connection (open_session port)).1.st
        ∧ (close_connection (close_connection (open_session port)).1).1.tr
            = (close_connection (open_session port)).1.tr
        ∧ (close_connection (close_connection (open_session port)).1).1.log
            = (close_connection (open_session port)).1.log
              ++ [(LogLevel.warning, alreadyClosedMsg port)])
    ∧ (∀ s : Sys, s.st.is_connected = false →
        close_connection s
          = (logAdd s .warning (alreadyClosedMsg s.st.port_name), .ok ())) := by
  constructor
  · intro port
    rw [close_connection_of_connected (open_session port) rfl]
    rw [close_connection_of_not_connected _ rfl]
    exact ⟨rfl, rfl, rfl, rfl, rfl, rfl⟩
  · exact fun s h => close_connection_of_not_connected s h

/-- Witness for C2 at a concrete port and a concrete disconnected session. -/
theorem C2_close_idempotent_witness :
    closedSession.st.is_connected = false
      ∧ close_connection closedSession
          = (logAdd closedSession .warning (alreadyClosedMsg "COM4"), .ok ())
      ∧ (close_connection (open_session "COM4")).1.st.is_connected = false :=
  ⟨rfl, C2_close_idempotent.2 closedSession rfl, (C2_close_idempotent.1 "COM4").2.1⟩

/-! ## Claim C5 — set_constant_current command sequence and state effect -/

/-- Claim C5: on a connected session, `set_constant_current v` sends, in this
order: `VOLT:PROT 0` (disable voltage protection), `SFUN:EXP:ENAB OFF`
(disable exponential mode), `CURR:RANG v` (program current range),
`CURR v` (program current), `MODE:CURR` (switch to constant-current mode);
it succeeds, and afterwards `configured_current = v` and
`last_current_range = v`. -/
theorem C5_set_constant_current_sequence (s : Sys) (v : ℚ) (h : s.st.is_connected = true) :
    (set_constant_current s v).2 = .ok ()
      ∧ (set_constant_current s v).1.tr.written
          = s.tr.written
            ++ (["VOLT:PROT 0", "SFUN:EXP:ENAB OFF", "CURR:RANG " ++ fmtQ v,
                 "CURR " ++ fmtQ v, "MODE:CURR"].map fun c => c ++ "\n")
      ∧ (set_constant_current s v).1.st.configured_current = v
      ∧ (set_constant_current s v).1.st.last_current_range = v := by
  unfold set_constant_current
  dsimp only
  rcases hsl : sendList { s with st := { s.st with configured_current := v } }
      ["VOLT:PROT 0", "SFUN:EXP:ENAB OFF", "CURR:RANG " ++ fmtQ v] with ⟨s1, r1⟩
  obtain ⟨hok1, hw1, -⟩ := sendList_of_connected
      { s with st := { s.st with configured_current := v } }
      ["VOLT:PROT 0", "SFUN:EXP:ENAB OFF", "CURR:RANG " ++ fmtQ v] h
  have hst1 := sendList_st { s with st := { s.st with configured_current := v } }
      ["VOLT:PROT 0", "SFUN:EXP:ENAB OFF", "CURR:RANG " ++ fmtQ v]
  rw [hsl] at hok1 hw1 hst1
  simp only at hok1 hw1 hst1
  subst hok1
  dsimp only
  have h1 : s1.st.is_connected = true := by rw [hst1]; exact h
  rcases hc : send_command { s1 with st := { s1.st with last_current_range := v } }
      ("CURR " ++ fmtQ v) with ⟨s3, r3⟩
  have hok3 := send_command_ok_of_connected
    { s1 with st := { s1.st with last_current_range := v } } ("CURR " ++ fmtQ v) h1
  have hw3 := send_command_written_of_connected
    { s1 with st := { s1.st with last_current_range := v } } ("CURR " ++ fmtQ v) h1
  have hst3 := send_command_st
    { s1 with st := { s1.st with last_current_range := v } } ("CURR " ++ fmtQ v)
  rw [hc] at hok3 hw3 hst3
  simp only at hok3 hw3 hst3
  rw [hok3]
  dsimp only
  unfold mode_current
  have h3 : s3.st.is_connected = true := by rw [hst3]; exact h1
  rcases hm : send_command s3 "MODE:CURR" with ⟨s4, r4⟩
  have hok4 := send_command_ok_of_connected s3 "MODE:CURR" h3
  have hw4 := send_command_written_of_connected s3 "MODE:CURR" h3
  have hst4 := send_command_st s3 "MODE:CURR"
  rw [hm] at hok4 hw4 hst4
  simp only at hok4 hw4 hst4
  rw [hok4]
  dsimp only
  refine ⟨rfl, ?_, ?_, ?_⟩
  · show s4.tr.written = _
    rw [hw4, hw3, hw1]
    simp [List.append_assoc]
  · show s4.st.configured_current = v
    rw [hst4, hst3]
    show s1.st.configured_current = v
    rw [hst1]
  · show s4.st.last_current_range = v
    rw [hst4, hst3]

/-- Witness for C5 at a concrete connected session and value. -/
theorem C5_set_constant_current_sequence_witness :
    (mkSession "").st.is_connected = true
      ∧ (set_constant_current (mkSession "") 2).1.st.last_current_range = 2 :=
  ⟨rfl, (C5_set_constant_current_sequence (mkSession "") 2 rfl).2.2.2⟩

/-! ## Claim C6 — inrush with zero inrush time degenerates to constant current -/

/-- Claim C6: on a connected session, `set_inrush_current` with
`inrush_time = 0` is behaviorally identical to `set_constant_current` of the
nominal value, whatever the other arguments: the two calls return the very
same outcome — same final session fields (`configured_current`,
`last_current_range`), same transport transcript (hence the same device
mode, `MODE:CURR`), same log, same result. -/
theorem C6_inrush_zero_is_constant_current (s : Sys) (X iv thr : ℚ) (b : Bool)
    (h : s.st.is_connected = true) :
    set_inrush_current s X iv 0 b thr = set_constant_current s X := by
  unfold set_inrush_current
  rw [if_pos rfl]
  unfold set_constant_current
  rfl

/-- Witness for C6 at a concrete connected session and arguments. -/
theorem C6_inrush_zero_is_constant_current_witness :
    (mkSession "").st.is_connected = true
      ∧ set_inrush_current (mkSession "") 2 9 0 false 6
          = set_constant_current (mkSession "") 2 :=
  ⟨rfl, C6_inrush_zero_is_constant_current (mkSession "") 2 9 6 false rfl⟩

/-! ## Claim C7 — the current range programmed by perform_pulse -/

/-- `perform_pulse` stores `max(current, configured_current rounded to three
decimal places)` into `last_current_range` — the rounding comes from
`float('{0:.3f}'.format(self.configured_current))` in the source.  The
assignment happens before the first command, so it holds regardless of the
connection state. -/
theorem perform_pulse_last_range (s : Sys) (cur d : ℚ) :
    (perform_pulse s cur d).1.st.last_current_range
      = max cur (round3 s.st.configured_current) := by
  unfold perform_pulse
  dsimp only
  rw [sendList_st]

/-- Claim C7 (amended): on a connected session, `perform_pulse cur d` sets
`last_current_range` to the maximum of `cur` and the session's
`configured_current` ROUNDED TO THREE DECIMAL PLACES (the value re-parsed
from its `'{0:.3f}'` formatting); in particular the result is never less
than `cur` — but it can be less than the unrounded `configured_current`. -/
theorem C7_pulse_range (s : Sys) (cur d : ℚ) (h : s.st.is_connected = true) :
    (perform_pulse s cur d).1.st.last_current_range
        = max cur (round3 s.st.configured_current)
      ∧ cur ≤ (perform_pulse s cur d).1.st.last_current_range := by
  have hr := perform_pulse_last_range s cur d
  exact ⟨hr, by rw [hr]; exact le_max_left _ _⟩

/-- Counterexample to claim C7 as stated: with `configured_current = 0.0004`
and a pulse of amplitude 0, the resulting `last_current_range` is 0 — it is
NOT `max(current, configured_current) = 0.0004`, and it is strictly less
than the session's `configured_current`. -/
theorem C7_pulse_range_counterexample :
    (perform_pulse smallCurrentSession 0 1).1.st.last_current_range
        ≠ max 0 smallCurrentSession.st.configured_current
      ∧ (perform_pulse smallCurrentSession 0 1).1.st.last_current_range
          < smallCurrentSession.st.configured_current := by
  rw [perform_pulse_last_range]
  have hround : round3 smallCurrentSession.st.configured_current = 0 := by
    show round3 (1 / 2500) = 0
    unfold round3 roundHalfEven
    norm_num
  rw [hround]
  constructor
  · show max 0 0 ≠ max 0 (1 / 2500 : ℚ)
    norm_num
  · show max 0 0 < (1 / 2500 : ℚ)
    norm_num

/-- Witness for the amended C7 at a concrete session. -/
theorem C7_pulse_range_witness :
    smallCurrentSession.st.is_connected = true
      ∧ (3 : ℚ) ≤ (perform_pulse smallCurrentSession 3 1).1.st.last_current_range :=
  ⟨rfl, (C7_pulse_range smallCurrentSession 3 1 rfl).2⟩

/-! ## Claim C3 — what a malformed numeric response actually raises -/

/-- Claim C3 names the intended behaviour; the code has a slip.  On a
connected session whose device response to `MEAS:CURR?` is `abcE+00` (a
non-numeric mantissa), `measure_current` raises the UNCAUGHT `ValueError`
of `float('abc')` — not the logged `ParseError`/`RuntimeError` that the
spec (and the method's own docstring, "Raises RuntimeError") promise —
because `_convert_to_float` catches only `TypeError`, and nothing at all is
logged.  The same decode path is shared by every read operation
(`read_float_of_connected_query`). -/
theorem C3_parse_bug_eval :
    (measure_current (mkSession "abcE+00")).2 = .error (.valueError "abc")
      ∧ (measure_current (mkSession "abcE+00")).1.log = (mkSession "abcE+00").log := by
  have h := read_float_of_connected_query (mkSession "abcE+00") "MEAS:CURR?"
      "Not possible to read current value" rfl (by decide)
  unfold measure_current
  rw [h]
  exact ⟨by decide, rfl⟩

/-! ## Claim C4 — the numeric response decoder -/

theorem floatPow10_intCast (n : ℤ) : floatPow10 (n : ℚ) = (10:ℚ) ^ n := by
  unfold floatPow10
  rw [Rat.den_intCast, Rat.num_intCast]
  simp

/-- Counterexample to claim C4 as stated: the source decoder does not merely
strip LEADING `+` signs — it removes every `+`.  On the response `1.0E1+2`,
whose exponent part `1+2` has an interior `+`, the decoder of the claim's
wording fails to parse, while the source decoder removes the sign, parses
`12`, and produces a value; the two disagree. -/
theorem C4_decoder_counterexample :
    (decode_response "1.0E1+2").toOption ≠ specDecodeLeading "1.0E1+2"
      ∧ specDecodeLeading "1.0E1+2" = none := by
  constructor
  · decide
  · decide

/-- Claim C4 (amended): the numeric response decoder applied by every read
operation splits the response on `E` into mantissa and exponent, REMOVES
every `+` sign from both (not only leading ones), parses each as a number,
and returns mantissa times ten to the exponent: it agrees on every response
string with the decoder worded that way (`specDecodeAmended`); in
particular decoding `1.234E+00` yields exactly 1.234 and decoding
`5.000E-02` yields exactly 0.05. -/
theorem C4_decoder_amended :
    (∀ r : String, (decode_response r).toOption = specDecodeAmended r)
      ∧ decode_response "1.234E+00" = .ok (1.234 : ℚ)
      ∧ decode_response "5.000E-02" = .ok (0.05 : ℚ) := by
  refine ⟨?_, ?_, ?_⟩
  · intro r
    unfold decode_response specDecodeAmended splitE
    rcases hs : splitOnChar 'E' r with _ | ⟨a, _ | ⟨b, rest⟩⟩
    · rfl
    · rfl
    · rcases h1 : parseFloat? (removeChar '+' a) with _ | base
      · dsimp only
        rw [h1]
        rfl
      · rcases h2 : parseFloat? (removeChar '+' b) with _ | exp
        · dsimp only
          rw [h1, h2]
          rfl
        · dsimp only
          rw [h1, h2]
          rfl
  · have h1 : decode_response "1.234E+00"
        = .ok (((digitsVal "1" : ℚ) + (digitsVal "234" : ℚ) / (10:ℚ) ^ strLength "234")
            * floatPow10 ((digitsVal "00" : ℚ))) := rfl
    rw [h1]
    have d1 : digitsVal "1" = 1 := by decide
    have d2 : digitsVal "234" = 234 := by decide
    have d3 : digitsVal "00" = 0 := by decide
    have dl : strLength "234" = 3 := by decide
    rw [d1, d2, d3, dl]
    have hc : ((0:ℕ) : ℚ) = ((0:ℤ) : ℚ) := by norm_num
    rw [hc, floatPow10_intCast 0]
    norm_num
  · have h1 : decode_response "5.000E-02"
        = .ok (((digitsVal "5" : ℚ) + (digitsVal "000" : ℚ) / (10:ℚ) ^ strLength "000")
            * floatPow10 (-(digitsVal "02" : ℚ))) := rfl
    rw [h1]
    have d1 : digitsVal "5" = 5 := by decide
    have d2 : digitsVal "000" = 0 := by decide
    have d3 : digitsVal "02" = 2 := by decide
    have dl : strLength "000" = 3 := by decide
    rw [d1, d2, d3, dl]
    have hc : -((2:ℕ) : ℚ) = ((-2:ℤ) : ℚ) := by norm_num
    rw [hc, floatPow10_intCast (-2)]
    norm_num
